import Mathlib

/-!
# Verification of ai-cloud-doctor configuration / ledger logic

Shallow embedding of the configuration resolver (`src/config.ts`, snapshot
`src/unnamed/part_006`), the live-mode detector (`src/detectors/awslive.ts`),
the job ledger (`src/utils/jobTracker.ts`), the completion client
(`src/providers/openai.ts`) and the offline branches of the cost and Lambda
analyzers (`src/analyzers/cost.ts`, `src/analyzers/lambda.ts`).

JavaScript conventions used throughout the embedding:
* an absent (`undefined`) value is `none`;
* JS truthiness of a string option is `strT` (absent or `""` is falsy);
* JS truthiness of a numeric option is `numT` (absent or `0` is falsy);
* `a || b` on strings/options is `jsOrS` / `jsOrD`; on numbers `jsOrQ`.
-/

namespace AiCloudDoctor

/-- JS truthiness of an optional string: `undefined` and `""` are falsy. -/
def strT : Option String → Bool
  | some s => s != ""
  | none => false

/-- JS truthiness of an optional number: `undefined` and `0` are falsy. -/
def numT : Option Int → Bool
  | some n => n != 0
  | none => false

/-- JS `a || b` on two optional strings (used for
`process.env.AWS_REGION || process.env.AWS_DEFAULT_REGION`). -/
def jsOrS (a b : Option String) : Option String := if strT a then a else b

/-- JS `(a || d).toString()` for an optional string with a string default
(used for `(cli.mode || "auto").toString()`). -/
def jsOrD (a : Option String) (d : String) : String :=
  if strT a then a.getD d else d

/-- JS `a || d` on an optional rational with a rational default: a configured
`0` is falsy and falls through to the default (used for the per-token rates
`config.inputTokenCost || 0.15` etc. in `jobTracker.ts`). -/
def jsOrQ (a : Option ℚ) (d : ℚ) : ℚ :=
  match a with
  | some x => if x = 0 then d else x
  | none => d

/-- AWS credential object from the `AppConfig` interface in `config.ts`:
`accessKeyId` and `secretAccessKey` are required, `sessionToken` optional. -/
structure AwsCredentials where
  accessKeyId : String
  secretAccessKey : String
  sessionToken : Option String := none
deriving DecidableEq, Repr

/-- The `AppConfig` interface from `config.ts` (snapshot `part_006`), which is
also the shape of the persisted configuration file (`Partial<AppConfig>`).
The three per-token pricing fields come from the configuration interface of
the current revision: they are referenced by `jobTracker.ts` / `cli.ts` and
documented in the README's example configuration file. -/
structure AppConfig where
  openaiKey : Option String := none
  model : Option String := none
  maxTokens : Option Int := none
  scanPeriod : Option Int := none
  region : Option String := none
  awsCredentials : Option AwsCredentials := none
  offline : Option Bool := none
  inputTokenCost : Option ℚ := none
  outputTokenCost : Option ℚ := none
  cachedTokenCost : Option ℚ := none
deriving DecidableEq, Repr

/-- Environment variables read by `loadConfig`. -/
structure EnvVars where
  OPENAI_API_KEY : Option String := none
  AWS_REGION : Option String := none
  AWS_DEFAULT_REGION : Option String := none
  AWS_ACCESS_KEY_ID : Option String := none
  AWS_SECRET_ACCESS_KEY : Option String := none
  AWS_SESSION_TOKEN : Option String := none
deriving DecidableEq, Repr

/-- CLI option map consumed by `loadConfig` / `ensureAwsLive`.  Commander
passes flag values as strings; the numeric flags (`maxTokens`, `scanPeriod`)
are modelled as the `parseInt` result of the supplied flag, with `isSome`
standing for the truthiness of the raw (nonempty) flag string. -/
structure CliOpts where
  openaiKey : Option String := none
  model : Option String := none
  maxTokens : Option Int := none
  scanPeriod : Option Int := none
  region : Option String := none
  mode : Option String := none
deriving DecidableEq, Repr

/-- `config.ts` lines 74–81: `openaiKey` — CLI option overrides env and file. -/
def resolveOpenaiKey (cliV envV fileV : Option String) : Option String :=
  if strT cliV then cliV
  else if strT envV then envV
  else if strT fileV then fileV
  else none

/-- `config.ts` lines 83–88: `model` — CLI overrides file. -/
def resolveModel (cliV fileV : Option String) : Option String :=
  if strT cliV then cliV
  else if strT fileV then fileV
  else none

/-- `config.ts` lines 90–95: `maxTokens` — CLI overrides file. -/
def resolveMaxTokens (cliV fileV : Option Int) : Option Int :=
  if cliV.isSome then cliV
  else if numT fileV then fileV
  else none

/-- `config.ts` lines 97–105: `scanPeriod` — CLI overrides file, the CLI value
is validated against `[1, 7, 30, 120, 365].includes(period)`; when the CLI
value is present but invalid, no assignment happens at all (the `else if`
branch reading the file value is not taken). -/
def resolveScanPeriod : Option Int → Option Int → Option Int
  | some p, _ => if p ∈ ([1, 7, 30, 120, 365] : List Int) then some p else none
  | none, fileV => if numT fileV then fileV else none

/-- `config.ts` lines 107–114: `region` — CLI overrides env and file (the env
value being `AWS_REGION || AWS_DEFAULT_REGION`). -/
def resolveRegion (cliV envV fileV : Option String) : Option String :=
  if strT cliV then cliV
  else if strT envV then envV
  else if strT fileV then fileV
  else none

/-- `config.ts` lines 116–126: AWS credentials resolve as a unit — the env
pair (access + secret, plus optional session token) wins when both required
keys are truthy, otherwise the file's credential object is used as-is. -/
def resolveAwsCreds (access secret token : Option String)
    (fileCreds : Option AwsCredentials) : Option AwsCredentials :=
  if strT access && strT secret then
    some { accessKeyId := access.getD "", secretAccessKey := secret.getD "",
           sessionToken := token }
  else fileCreds

/-- `config.ts` lines 128–137: `offline` — forced by `--mode`, and in `auto`
mode `cfg.offline = !awsCreds`. -/
def resolveOffline (mode : String) (creds : Option AwsCredentials) : Bool :=
  if mode = "offline" then true
  else if mode = "live" then false
  else creds.isNone

/-- `config.ts` lines 143–167: the write-back block.  Starting from a spread
of the file's previous contents, the resolved `openaiKey`, `region` and AWS
credentials are stored when truthy/present and missing from the file; the
second component is the `needsWrite` flag. -/
def writeBack (fileCfg : AppConfig) (key region : Option String)
    (creds : Option AwsCredentials) : AppConfig × Bool :=
  let wKey := strT key && !(strT fileCfg.openaiKey)
  let wRegion := strT region && !(strT fileCfg.region)
  let wCreds := creds.isSome && fileCfg.awsCredentials.isNone
  ({ fileCfg with
      openaiKey := if wKey then key else fileCfg.openaiKey,
      region := if wRegion then region else fileCfg.region,
      awsCredentials := if wCreds then creds else fileCfg.awsCredentials },
   wKey || wRegion || wCreds)

/-- Result of `loadConfig`: the effective configuration, the contents of the
persisted file after the call (unchanged when no write happened), and whether
a write was issued. -/
structure LoadResult where
  cfg : AppConfig
  file : AppConfig
  wrote : Bool
deriving DecidableEq, Repr

/-- `loadConfig` from `config.ts` (snapshot `part_006`), lines 52–170.  The
persisted file's parsed contents, the environment and the CLI option map are
explicit parameters; a missing or malformed file is the all-`none`
configuration `{}` (the catch branch at lines 59–62). -/
def loadConfig (fileCfg : AppConfig) (env : EnvVars) (cli : CliOpts) : LoadResult :=
  let envRegion := jsOrS env.AWS_REGION env.AWS_DEFAULT_REGION
  let openaiKey := resolveOpenaiKey cli.openaiKey env.OPENAI_API_KEY fileCfg.openaiKey
  let model := resolveModel cli.model fileCfg.model
  let maxTokens := resolveMaxTokens cli.maxTokens fileCfg.maxTokens
  let scanPeriod := resolveScanPeriod cli.scanPeriod fileCfg.scanPeriod
  let region := resolveRegion cli.region envRegion fileCfg.region
  let awsCreds := resolveAwsCreds env.AWS_ACCESS_KEY_ID env.AWS_SECRET_ACCESS_KEY
    env.AWS_SESSION_TOKEN fileCfg.awsCredentials
  let mode := jsOrD cli.mode "auto"
  let offline := resolveOffline mode awsCreds
  let cfg : AppConfig :=
    { openaiKey := openaiKey, model := model, maxTokens := maxTokens,
      scanPeriod := scanPeriod, region := region, awsCredentials := awsCreds,
      offline := some offline }
  let wb := writeBack fileCfg openaiKey region awsCreds
  { cfg := cfg, file := if wb.2 then wb.1 else fileCfg, wrote := wb.2 }

/-- `ensureAwsLive` from `detectors/awslive.ts` (snapshot in `part_001`),
lines 199–216.  The returned boolean is the `live` field of the result
object; the error string is the thrown configuration error. -/
def ensureAwsLive (cfg : AppConfig) (cli : CliOpts) : Except String Bool :=
  let requestedMode := jsOrD cli.mode "auto"
  if requestedMode = "offline" then .ok false
  else if requestedMode = "live" then
    if cfg.awsCredentials.isSome then .ok true
    else .error "AWS credentials not found but --mode=live requested."
  else if cfg.awsCredentials.isSome then .ok true
  else .ok false

/-! ## Job ledger (`src/utils/jobTracker.ts`) -/

/-- The `JobLog` record from `config.ts`, with the `cachedTokens` field
written by the current `jobTracker.ts` and the monetary fields as exact
rationals. -/
structure JobLog where
  id : String
  name : String
  timestamp : String
  inputTokens : Nat
  outputTokens : Nat
  cachedTokens : Option Nat := none
  totalTokens : Nat
  cost : Option ℚ := none
  model : Option String := none
deriving DecidableEq, Repr

/-- Hex digit used by Node's lowercase hex encoding (`0`–`9`, `a`–`f`):
codepoint `48 + n` for `n < 10`, `87 + n` (so `'a'` at `n = 10`) otherwise. -/
def hexDigit (n : Nat) : Char :=
  if n < 10 then Char.ofNat (48 + n) else Char.ofNat (87 + n)

/-- Hex encoding of one byte: high nibble then low nibble. -/
def byteToHex (b : Nat) : List Char := [hexDigit (b / 16), hexDigit (b % 16)]

/-- Hex encoding of a byte sequence (`Buffer.prototype.toString('hex')`). -/
def bytesToHexChars : List Nat → List Char
  | [] => []
  | b :: rest => byteToHex b ++ bytesToHexChars rest

/-- `generateJobId` from `jobTracker.ts` lines 9–11:
`randomBytes(8).toString('hex')`.  The eight random bytes drawn by the call
are the explicit argument. -/
def generateJobId (bytes : List Nat) : String := ⟨bytesToHexChars bytes⟩

/-- The sixteen characters the hex encoding can produce. -/
def hexChars : List Char := "0123456789abcdef".toList

/-- `calculateCost` from `jobTracker.ts` lines 38–45.  The configuration that
the function loads internally via `loadConfig()` is an explicit parameter;
`cachedTokens` already has its `= 0` default applied by the caller.  The JS
`config.inputTokenCost || 0.15` idiom is `jsOrQ`: an absent — or zero —
configured rate falls back to the default. -/
def calculateCost (config : AppConfig) (inputTokens outputTokens : Nat)
    (cachedTokens : Nat) : ℚ :=
  let actualInputTokens : ℚ := (inputTokens : ℚ) - (cachedTokens : ℚ)
  let inputCost := (actualInputTokens / 1000000) * jsOrQ config.inputTokenCost 0.15
  let outputCost := ((outputTokens : ℚ) / 1000000) * jsOrQ config.outputTokenCost 0.6
  let cachedCost := ((cachedTokens : ℚ) / 1000000) * jsOrQ config.cachedTokenCost 0.075
  inputCost + outputCost + cachedCost

/-- The `JobLog` object literal built inside `logJob` (`jobTracker.ts`
lines 16–26).  `idBytes` are the random bytes of the `generateJobId` call,
`timestamp` the `new Date().toISOString()` value, and `config` the
configuration that the internal `calculateCost` call loads.  The provider
cost goes through JS `cost || await calculateCost(...)` — an absent (or zero)
provider cost is replaced by the computed cost. -/
def mkJob (jobName : String) (inputTokens outputTokens : Nat) (cost : Option ℚ)
    (model : Option String) (cachedTokens : Option Nat) (idBytes : List Nat)
    (timestamp : String) (config : AppConfig) : JobLog :=
  { id := generateJobId idBytes
    name := jobName
    timestamp := timestamp
    inputTokens := inputTokens
    outputTokens := outputTokens
    cachedTokens := cachedTokens
    totalTokens := inputTokens + outputTokens + cachedTokens.getD 0
    cost := some (jsOrQ cost
      (calculateCost config inputTokens outputTokens (cachedTokens.getD 0)))
    model := model }

/-- `getJobLogs` from `jobTracker.ts` lines 47–57: reads the ledger file and
returns its parsed array; a missing or malformed file (`none`) yields `[]`. -/
def getJobLogs (stored : Option (List JobLog)) : List JobLog := stored.getD []

/-- `logJob` from `jobTracker.ts` lines 13–36: builds the record, reads the
full existing sequence, pushes the record and rewrites the file.  Returns the
generated id together with the new file contents. -/
def logJob (jobName : String) (inputTokens outputTokens : Nat) (cost : Option ℚ)
    (model : Option String) (cachedTokens : Option Nat) (idBytes : List Nat)
    (timestamp : String) (config : AppConfig) (stored : Option (List JobLog)) :
    String × List JobLog :=
  let jobId := generateJobId idBytes
  let job := mkJob jobName inputTokens outputTokens cost model cachedTokens
    idBytes timestamp config
  (jobId, getJobLogs stored ++ [job])

/-! ## Completion client (`src/providers/openai.ts`) -/

/-- Response shape returned by `ask` (the `OpenAIResponse` interface). -/
structure OpenAIResponse where
  content : String
  inputTokens : Nat
  outputTokens : Nat
  cachedTokens : Option Nat := none
  cost : Option ℚ := none
  model : Option String := none
deriving DecidableEq, Repr

/-- `completion.choices[i].message.content` chain, every step optional. -/
structure ChatMessage where
  content : Option String := none
deriving DecidableEq, Repr

structure ChatChoice where
  message : Option ChatMessage := none
deriving DecidableEq, Repr

/-- `completion.usage`, flattened: `cached_tokens` stands for
`usage.prompt_tokens_details.cached_tokens` and `total_cost` for
`usage.total_cost`. -/
structure ChatUsage where
  prompt_tokens : Option Nat := none
  completion_tokens : Option Nat := none
  cached_tokens : Option Nat := none
  total_cost : Option ℚ := none
deriving DecidableEq, Repr

structure ChatCompletion where
  choices : List ChatChoice
  usage : Option ChatUsage := none
  model : String
deriving DecidableEq, Repr

/-- Rendering of the `JSON.stringify(completion.choices[0])` diagnostic in
the empty-content branch.  The exact JSON text is irrelevant to the verified
properties; only the surrounding message matters. -/
def stringifyChoice (c : ChatChoice) : String :=
  match c.message with
  | none => "\x7b\x7d"
  | some m =>
    match m.content with
    | none => "\x7b\"message\":\x7b\x7d\x7d"
    | some s => "\x7b\"message\":\x7b\"content\":\"" ++ s ++ "\"\x7d\x7d"

/-- Body of `ask` (`openai.ts` lines 20–80).  The synchronous remote call is
the `outcome` parameter: `.error e` is the exception message caught by the
`catch` block; `.ok completion` the completion object.  The JS
`prompt_tokens || 0` zero-defaults are `Option.getD 0`. -/
def askImpl (outcome : Except String ChatCompletion) : OpenAIResponse :=
  match outcome with
  | .error e =>
    { content := "OpenAI API error: " ++ e, inputTokens := 0, outputTokens := 0,
      cachedTokens := some 0, cost := some 0, model := some "N/A" }
  | .ok completion =>
    if completion.choices.isEmpty then
      { content := "OpenAI returned no choices", inputTokens := 0,
        outputTokens := 0, cachedTokens := some 0, cost := some 0,
        model := some "N/A" }
    else
      let choice0 := completion.choices.headD {}
      let contentOpt := choice0.message.bind (·.content)
      if strT contentOpt then
        { content := contentOpt.getD ""
          inputTokens := (completion.usage.bind (·.prompt_tokens)).getD 0
          outputTokens := (completion.usage.bind (·.completion_tokens)).getD 0
          cachedTokens := some ((completion.usage.bind (·.cached_tokens)).getD 0)
          cost := completion.usage.bind (·.total_cost)
          model := some completion.model }
      else
        { content := "OpenAI returned empty content. Response: " ++
            stringifyChoice choice0
          inputTokens := 0, outputTokens := 0, cachedTokens := some 0,
          cost := some 0, model := some "N/A" }

/-- The object returned by `makeOpenAI`, holding the `ask` closure. -/
structure OpenAIClient where
  ask : Except String ChatCompletion → OpenAIResponse

/-- `makeOpenAI` from `openai.ts` lines 12–82: throws the configuration error
before any network activity when `config.openaiKey` is falsy, otherwise
returns the client whose `ask` behaves as `askImpl`. -/
def makeOpenAI (config : AppConfig) : Except String OpenAIClient :=
  if strT config.openaiKey then .ok { ask := askImpl }
  else .error
    "OPENAI_API_KEY missing.  Set it via environment variable or ~/.ai-cloud-doctor-configs.json"

/-! ## Offline analyzer branches (`src/analyzers/cost.ts`, `lambda.ts`) -/

/-- Effects visible to the analyzer claims: the returned text, the ledger
file contents after the call, and the number of completion calls issued. -/
structure AnalyzerResult where
  output : String
  ledger : Option (List JobLog)
  askCalls : Nat
deriving Repr

/-- External outcomes consumed by an analyzer's live branch: the serialized
AWS data string (the collector already stringifies its own errors), the
completion call's response, the random bytes and timestamp of the ledger
append, and the configuration loaded by the internal `calculateCost`. -/
structure AnalyzerEnv where
  awsData : String
  response : OpenAIResponse
  idBytes : List Nat
  timestamp : String
  costConfig : AppConfig
deriving Repr

/-- `analyzeCost` from `analyzers/cost.ts` lines 91–112 (current snapshot).
The `live.live` check comes first: in offline mode the stub string is
returned before the key check, the completion call and the `logJob` append.
In the live path the function issues one completion call and appends one
`cost-analysis` record carrying the response's token counts and cost. -/
def analyzeCost (cfg : AppConfig) (live : Bool) (env : AnalyzerEnv)
    (stored : Option (List JobLog)) : AnalyzerResult :=
  if !live then
    { output := "### Cost\nNo live AWS credentials; provide a cost report or run with credentials for analysis."
      ledger := stored, askCalls := 0 }
  else if !(strT cfg.openaiKey) then
    { output := "### Cost\nOpenAI API key missing; cannot perform cost analysis."
      ledger := stored, askCalls := 0 }
  else
    let response := env.response
    let appended := logJob "cost-analysis" response.inputTokens
      response.outputTokens response.cost response.model none env.idBytes
      env.timestamp env.costConfig stored
    { output := "### Cost\n" ++ env.awsData ++ "\n\n" ++ response.content
      ledger := some appended.2, askCalls := 1 }

/-- `analyzeLambda` from `analyzers/lambda.ts` lines 24–45, with the same
shape as `analyzeCost` and the `### Lambda` offline stub. -/
def analyzeLambda (cfg : AppConfig) (live : Bool) (env : AnalyzerEnv)
    (stored : Option (List JobLog)) : AnalyzerResult :=
  if !live then
    { output := "### Lambda\nOffline mode: supply logs/metrics export for tuning suggestions."
      ledger := stored, askCalls := 0 }
  else if !(strT cfg.openaiKey) then
    { output := "### Lambda\nOpenAI API key missing; cannot perform Lambda analysis."
      ledger := stored, askCalls := 0 }
  else
    let response := env.response
    let appended := logJob "lambda-analysis" response.inputTokens
      response.outputTokens response.cost response.model none env.idBytes
      env.timestamp env.costConfig stored
    { output := "### Lambda\n" ++ env.awsData ++ "\n\n" ++ response.content
      ledger := some appended.2, askCalls := 1 }

/-- `s` contains `pat` as a contiguous substring. -/
def containsStr (s pat : String) : Prop := ∃ a b, s = a ++ pat ++ b

/-- Spec-side cost formula for the claim as originally worded: the rates are
the configured values, with the defaults 0.15 / 0.6 / 0.075 used only when a
rate is unconfigured (absent). -/
def claimCost (config : AppConfig) (inputTokens outputTokens cachedTokens : Nat) : ℚ :=
  ((inputTokens : ℚ) - (cachedTokens : ℚ)) / 1000000 * config.inputTokenCost.getD 0.15
    + ((outputTokens : ℚ) / 1000000) * config.outputTokenCost.getD 0.6
    + ((cachedTokens : ℚ) / 1000000) * config.cachedTokenCost.getD 0.075

/-- Spec-side rate resolution for the amended claim: the configured value,
with the default used when the rate is unconfigured or configured as `0`
(the JS falsy check `config.inputTokenCost || 0.15`). -/
def claimRateAmended (o : Option ℚ) (d : ℚ) : ℚ :=
  match o with
  | some r => if r = 0 then d else r
  | none => d

/-! ## Claim theorems -/

/-- C2: `ensureAwsLive` returns `live = false` for requested mode `offline`
regardless of credentials; for mode `live` it returns `live = true` when
`cfg.awsCredentials` is present and raises the configuration error when it is
absent; for mode `auto` or an unspecified mode it returns `live = true` iff
`cfg.awsCredentials` is present. -/
theorem ensureAwsLive_mode_spec (cfg : AppConfig) (cli : CliOpts) :
    (cli.mode = some "offline" → ensureAwsLive cfg cli = .ok false) ∧
    (cli.mode = some "live" → cfg.awsCredentials.isSome = true →
      ensureAwsLive cfg cli = .ok true) ∧
    (cli.mode = some "live" → cfg.awsCredentials = none →
      ensureAwsLive cfg cli =
        .error "AWS credentials not found but --mode=live requested.") ∧
    ((cli.mode = some "auto" ∨ cli.mode = none) →
      ensureAwsLive cfg cli = .ok cfg.awsCredentials.isSome) := by
  refine ⟨?_, ?_, ?_, ?_⟩
  · intro h
    simp [ensureAwsLive, jsOrD, strT, h]
  · intro h hc
    simp [ensureAwsLive, jsOrD, strT, h, hc]
  · intro h hc
    simp [ensureAwsLive, jsOrD, strT, h, hc]
  · rintro (h | h) <;>
      cases hc : cfg.awsCredentials <;>
        simp [ensureAwsLive, jsOrD, strT, h, hc]

/-- C2 witness: the three modes evaluated on concrete configurations. -/
theorem ensureAwsLive_mode_spec_witness :
    ({ mode := some "offline" } : CliOpts).mode = some "offline" ∧
    ensureAwsLive { awsCredentials := some ⟨"AKIATEST", "SECRETTEST", none⟩ }
      { mode := some "offline" } = .ok false ∧
    ensureAwsLive { awsCredentials := some ⟨"AKIATEST", "SECRETTEST", none⟩ }
      { mode := some "live" } = .ok true ∧
    ensureAwsLive {} { mode := some "live" } =
      .error "AWS credentials not found but --mode=live requested." ∧
    ensureAwsLive {} {} = .ok false :=
  ⟨rfl,
   (ensureAwsLive_mode_spec { awsCredentials := some ⟨"AKIATEST", "SECRETTEST", none⟩ }
      { mode := some "offline" }).1 rfl,
   (ensureAwsLive_mode_spec { awsCredentials := some ⟨"AKIATEST", "SECRETTEST", none⟩ }
      { mode := some "live" }).2.1 rfl rfl,
   (ensureAwsLive_mode_spec {} { mode := some "live" }).2.2.1 rfl rfl,
   (ensureAwsLive_mode_spec {} {}).2.2.2 (Or.inr rfl)⟩

/-- C7: `makeOpenAI` raises the missing-key error at construction time (as a
function of the configuration alone, before any remote outcome is consulted)
when no API key is present; otherwise it returns a client, and a remote-call
exception `e` is converted — never rethrown — into a response whose content
holds the error text and whose token counts are zero. -/
theorem makeOpenAI_error_contract (config : AppConfig) :
    (strT config.openaiKey = false →
      makeOpenAI config =
        .error "OPENAI_API_KEY missing.  Set it via environment variable or ~/.ai-cloud-doctor-configs.json") ∧
    (strT config.openaiKey = true → makeOpenAI config = .ok { ask := askImpl }) ∧
    (∀ client, makeOpenAI config = .ok client → ∀ e : String,
      (client.ask (.error e)).content = "OpenAI API error: " ++ e ∧
      (client.ask (.error e)).inputTokens = 0 ∧
      (client.ask (.error e)).outputTokens = 0) := by
  refine ⟨?_, ?_, ?_⟩
  · intro h
    simp [makeOpenAI, h]
  · intro h
    simp [makeOpenAI, h]
  · intro client h e
    by_cases hk : strT config.openaiKey
    · have : client = { ask := askImpl } := by
        simp [makeOpenAI, hk] at h
        exact h.symm
      subst this
      exact ⟨rfl, rfl, rfl⟩
    · simp [makeOpenAI, hk] at h

/-- C7 witness: an absent key raises at construction; a constructed client
converts the exception text `"boom"` into a zero-token response. -/
theorem makeOpenAI_error_contract_witness :
    strT ({} : AppConfig).openaiKey = false ∧
    makeOpenAI {} =
      .error "OPENAI_API_KEY missing.  Set it via environment variable or ~/.ai-cloud-doctor-configs.json" ∧
    strT ({ openaiKey := some "sk-test-123" } : AppConfig).openaiKey = true ∧
    makeOpenAI { openaiKey := some "sk-test-123" } = .ok { ask := askImpl } ∧
    ((OpenAIClient.mk askImpl).ask (.error "boom")).content = "OpenAI API error: " ++ "boom" ∧
    ((OpenAIClient.mk askImpl).ask (.error "boom")).inputTokens = 0 ∧
    ((OpenAIClient.mk askImpl).ask (.error "boom")).outputTokens = 0 :=
  ⟨rfl, (makeOpenAI_error_contract {}).1 rfl, rfl,
   (makeOpenAI_error_contract { openaiKey := some "sk-test-123" }).2.1 rfl,
   ((makeOpenAI_error_contract { openaiKey := some "sk-test-123" }).2.2
      { ask := askImpl }
      ((makeOpenAI_error_contract { openaiKey := some "sk-test-123" }).2.1 rfl)
      "boom").1,
   ((makeOpenAI_error_contract { openaiKey := some "sk-test-123" }).2.2
      { ask := askImpl }
      ((makeOpenAI_error_contract { openaiKey := some "sk-test-123" }).2.1 rfl)
      "boom").2.1,
   ((makeOpenAI_error_contract { openaiKey := some "sk-test-123" }).2.2
      { ask := askImpl }
      ((makeOpenAI_error_contract { openaiKey := some "sk-test-123" }).2.1 rfl)
      "boom").2.2⟩

/-- C8: with `live = false`, `analyzeCost` returns text containing
`"No live AWS credentials"` and `analyzeLambda` returns text containing
`"Offline mode"`; in both cases the ledger file is untouched and no
completion call is issued. -/
theorem offline_analyzers_frame (cfg : AppConfig) (env : AnalyzerEnv)
    (stored : Option (List JobLog)) :
    (analyzeCost cfg false env stored).ledger = stored ∧
    (analyzeCost cfg false env stored).askCalls = 0 ∧
    containsStr (analyzeCost cfg false env stored).output "No live AWS credentials" ∧
    (analyzeLambda cfg false env stored).ledger = stored ∧
    (analyzeLambda cfg false env stored).askCalls = 0 ∧
    containsStr (analyzeLambda cfg false env stored).output "Offline mode" :=
  ⟨rfl, rfl,
   ⟨"### Cost\n", "; provide a cost report or run with credentials for analysis.",
    rfl⟩,
   rfl, rfl,
   ⟨"### Lambda\n", ": supply logs/metrics export for tuning suggestions.",
    rfl⟩⟩

/-- C10: every record built by `logJob` has
`totalTokens = inputTokens + outputTokens + cachedTokens` with an absent
`cachedTokens` counted as 0 — cached tokens are added into the total even
though `calculateCost` subtracts them from the input tokens. -/
theorem logJob_totalTokens (name : String) (inT outT : Nat) (cost : Option ℚ)
    (model : Option String) (cached : Option Nat) (bytes : List Nat)
    (ts : String) (config : AppConfig) (stored : Option (List JobLog)) :
    (mkJob name inT outT cost model cached bytes ts config).totalTokens =
      inT + outT + cached.getD 0 ∧
    (logJob name inT outT cost model cached bytes ts config stored).2 =
      getJobLogs stored ++ [mkJob name inT outT cost model cached bytes ts config] :=
  ⟨rfl, rfl⟩

/-- C5 (amended): when the provider supplies no cost, the recorded cost is
the per-token-type formula, with each rate the configured value and the
defaults 0.15 / 0.6 / 0.075 used when the rate is unconfigured **or
configured as 0** (the JS falsy check). -/
theorem logJob_cost_formula (config : AppConfig) (name : String)
    (inT outT : Nat) (model : Option String) (cached : Option Nat)
    (bytes : List Nat) (ts : String) :
    (mkJob name inT outT none model cached bytes ts config).cost =
      some (((inT : ℚ) - ((cached.getD 0 : Nat) : ℚ)) / 1000000 *
              claimRateAmended config.inputTokenCost 0.15
            + ((outT : ℚ) / 1000000) * claimRateAmended config.outputTokenCost 0.6
            + (((cached.getD 0 : Nat) : ℚ) / 1000000) *
              claimRateAmended config.cachedTokenCost 0.075) := by
  simp only [mkJob, calculateCost, jsOrQ, claimRateAmended]

/-- C5 counterexample: with `inputTokenCost` configured as `0`, a call with
one million uncached input tokens records cost `0.15` (the default rate is
used), while the claim's formula — configured rate, default only when
unconfigured — yields `0`. -/
theorem logJob_cost_zero_rate_counterexample :
    (mkJob "cost-analysis" 1000000 0 none none none [0, 0, 0, 0, 0, 0, 0, 0]
        "2024-01-15T00:00:00.000Z" { inputTokenCost := some 0 }).cost =
      some (3 / 20 : ℚ) ∧
    claimCost { inputTokenCost := some 0 } 1000000 0 0 = 0 ∧
    (3 / 20 : ℚ) ≠ 0 := by
  refine ⟨?_, ?_, by norm_num⟩
  · simp [mkJob, calculateCost, jsOrQ]
    norm_num
  · simp [claimCost]

/-- C1: for the fields all three sources can supply (the API key and the
region), `loadConfig` prefers the CLI value; with no CLI value the
environment wins over the file; with neither the file value is used. -/
theorem loadConfig_source_precedence (fileCfg : AppConfig) (env : EnvVars)
    (cli : CliOpts) :
    (∀ c, cli.openaiKey = some c → c ≠ "" →
      (loadConfig fileCfg env cli).cfg.openaiKey = some c) ∧
    (∀ e, cli.openaiKey = none → env.OPENAI_API_KEY = some e → e ≠ "" →
      (loadConfig fileCfg env cli).cfg.openaiKey = some e) ∧
    (∀ f, cli.openaiKey = none → env.OPENAI_API_KEY = none →
      fileCfg.openaiKey = some f → f ≠ "" →
      (loadConfig fileCfg env cli).cfg.openaiKey = some f) ∧
    (∀ c, cli.region = some c → c ≠ "" →
      (loadConfig fileCfg env cli).cfg.region = some c) ∧
    (∀ e, cli.region = none → env.AWS_REGION = some e → e ≠ "" →
      (loadConfig fileCfg env cli).cfg.region = some e) ∧
    (∀ f, cli.region = none → env.AWS_REGION = none →
      env.AWS_DEFAULT_REGION = none → fileCfg.region = some f → f ≠ "" →
      (loadConfig fileCfg env cli).cfg.region = some f) := by
  refine ⟨?_, ?_, ?_, ?_, ?_, ?_⟩
  · intro c hc hne
    simp [loadConfig, resolveOpenaiKey, strT, hc, hne]
  · intro e hcli henv hne
    simp [loadConfig, resolveOpenaiKey, strT, hcli, henv, hne]
  · intro f hcli henv hfile hne
    simp [loadConfig, resolveOpenaiKey, strT, hcli, henv, hfile, hne]
  · intro c hc hne
    simp [loadConfig, resolveRegion, strT, hc, hne]
  · intro e hcli henv hne
    simp [loadConfig, resolveRegion, jsOrS, strT, hcli, henv, hne]
  · intro f hcli henv1 henv2 hfile hne
    simp [loadConfig, resolveRegion, jsOrS, strT, hcli, henv1, henv2, hfile, hne]

/-- C1 witness: all three sources set, then env + file, then file alone, for
both the API key and the region. -/
theorem loadConfig_source_precedence_witness :
    (some "c" = some "c" ∧ ("c" : String) ≠ "") ∧
    (loadConfig { openaiKey := some "f", region := some "rf" }
      { OPENAI_API_KEY := some "e", AWS_REGION := some "re" }
      { openaiKey := some "c", region := some "rc" }).cfg.openaiKey = some "c" ∧
    (loadConfig { openaiKey := some "f", region := some "rf" }
      { OPENAI_API_KEY := some "e", AWS_REGION := some "re" }
      { openaiKey := some "c", region := some "rc" }).cfg.region = some "rc" ∧
    (loadConfig { openaiKey := some "f", region := some "rf" }
      { OPENAI_API_KEY := some "e", AWS_REGION := some "re" } {}).cfg.openaiKey = some "e" ∧
    (loadConfig { openaiKey := some "f", region := some "rf" }
      { OPENAI_API_KEY := some "e", AWS_REGION := some "re" } {}).cfg.region = some "re" ∧
    (loadConfig { openaiKey := some "f", region := some "rf" } {} {}).cfg.openaiKey = some "f" ∧
    (loadConfig { openaiKey := some "f", region := some "rf" } {} {}).cfg.region = some "rf" :=
  ⟨⟨rfl, by decide⟩,
   (loadConfig_source_precedence { openaiKey := some "f", region := some "rf" }
      { OPENAI_API_KEY := some "e", AWS_REGION := some "re" }
      { openaiKey := some "c", region := some "rc" }).1 "c" rfl (by decide),
   (loadConfig_source_precedence { openaiKey := some "f", region := some "rf" }
      { OPENAI_API_KEY := some "e", AWS_REGION := some "re" }
      { openaiKey := some "c", region := some "rc" }).2.2.2.1 "rc" rfl (by decide),
   (loadConfig_source_precedence { openaiKey := some "f", region := some "rf" }
      { OPENAI_API_KEY := some "e", AWS_REGION := some "re" } {}).2.1
      "e" rfl rfl (by decide),
   (loadConfig_source_precedence { openaiKey := some "f", region := some "rf" }
      { OPENAI_API_KEY := some "e", AWS_REGION := some "re" } {}).2.2.2.2.1
      "re" rfl rfl (by decide),
   (loadConfig_source_precedence { openaiKey := some "f", region := some "rf" }
      {} {}).2.2.1 "f" rfl rfl rfl (by decide),
   (loadConfig_source_precedence { openaiKey := some "f", region := some "rf" }
      {} {}).2.2.2.2.2 "rf" rfl rfl rfl rfl (by decide)⟩

/-- C3 (amended): a CLI `scanPeriod` parsing to a value outside
{1, 7, 30, 120, 365} is rejected and the effective configuration's
`scanPeriod` is left absent — the persisted file's value is **not** restored,
because the `else if` branch reading the file is skipped when the CLI flag is
present; consumers later substitute the built-in default 30 for the absent
field. -/
theorem loadConfig_scanPeriod_invalid_cli (fileCfg : AppConfig) (env : EnvVars)
    (cli : CliOpts) (p : Int) (h1 : cli.scanPeriod = some p)
    (h2 : p ∉ ([1, 7, 30, 120, 365] : List Int)) :
    (loadConfig fileCfg env cli).cfg.scanPeriod = none := by
  simp [loadConfig, resolveScanPeriod, h1, h2]

/-- C3 witness: CLI `--scanPeriod 5` with a stored value 7 leaves the
effective scan period absent. -/
theorem loadConfig_scanPeriod_invalid_cli_witness :
    ({ scanPeriod := some 5 } : CliOpts).scanPeriod = some 5 ∧
    ((5 : Int) ∉ ([1, 7, 30, 120, 365] : List Int)) ∧
    (loadConfig { scanPeriod := some 7 } {} { scanPeriod := some 5 }).cfg.scanPeriod = none :=
  ⟨rfl, by decide,
   loadConfig_scanPeriod_invalid_cli { scanPeriod := some 7 } {}
     { scanPeriod := some 5 } 5 rfl (by decide)⟩

/-- C3 counterexample: with the persisted file storing scan period 7 and the
CLI supplying the invalid value 5, the claim says the effective scan period
falls back to the file's 7; the code leaves it absent instead. -/
theorem loadConfig_scanPeriod_counterexample :
    (loadConfig { scanPeriod := some 7 } {} { scanPeriod := some 5 }).cfg.scanPeriod = none ∧
    ({ scanPeriod := some 7 } : AppConfig).scanPeriod = some 7 ∧
    (loadConfig { scanPeriod := some 7 } {} { scanPeriod := some 5 }).cfg.scanPeriod ≠
      ({ scanPeriod := some 7 } : AppConfig).scanPeriod := by
  refine ⟨by decide, rfl, by decide⟩

/-- C4: the env credential pair (access + secret, with the optional session
token) wins over the file's credential object when both required keys are
set; when the pair is incomplete the environment contributes nothing and the
file's object (if any) is used; consequently the effective credentials are
either exactly the file's stored unit or the full environment unit — never a
mixture or a partial triple. -/
theorem loadConfig_awsCredentials_unit (fileCfg : AppConfig) (env : EnvVars)
    (cli : CliOpts) :
    (∀ a s, env.AWS_ACCESS_KEY_ID = some a → a ≠ "" →
      env.AWS_SECRET_ACCESS_KEY = some s → s ≠ "" →
      (loadConfig fileCfg env cli).cfg.awsCredentials =
        some { accessKeyId := a, secretAccessKey := s,
               sessionToken := env.AWS_SESSION_TOKEN }) ∧
    ((strT env.AWS_ACCESS_KEY_ID && strT env.AWS_SECRET_ACCESS_KEY) = false →
      (loadConfig fileCfg env cli).cfg.awsCredentials = fileCfg.awsCredentials) ∧
    ((loadConfig fileCfg env cli).cfg.awsCredentials = fileCfg.awsCredentials ∨
      (loadConfig fileCfg env cli).cfg.awsCredentials =
        some { accessKeyId := env.AWS_ACCESS_KEY_ID.getD "",
               secretAccessKey := env.AWS_SECRET_ACCESS_KEY.getD "",
               sessionToken := env.AWS_SESSION_TOKEN }) := by
  refine ⟨?_, ?_, ?_⟩
  · intro a s ha hane hs hsne
    simp [loadConfig, resolveAwsCreds, strT, ha, hane, hs, hsne]
  · intro h
    simp [loadConfig, resolveAwsCreds, h]
  · by_cases h : (strT env.AWS_ACCESS_KEY_ID && strT env.AWS_SECRET_ACCESS_KEY) = true
    · right
      simp [loadConfig, resolveAwsCreds, h]
    · left
      simp only [Bool.not_eq_true] at h
      simp [loadConfig, resolveAwsCreds, h]

/-- C4 witness: a full env pair wins over a stored unit; a partial env pair
(access key only) is ignored in favour of the stored unit. -/
theorem loadConfig_awsCredentials_unit_witness :
    (some "AKIATEST" = some "AKIATEST" ∧ ("AKIATEST" : String) ≠ "") ∧
    (loadConfig { awsCredentials := some ⟨"FA", "FS", none⟩ }
      { AWS_ACCESS_KEY_ID := some "AKIATEST",
        AWS_SECRET_ACCESS_KEY := some "SECRETTEST",
        AWS_SESSION_TOKEN := some "TOK" } {}).cfg.awsCredentials =
      some { accessKeyId := "AKIATEST", secretAccessKey := "SECRETTEST",
             sessionToken := some "TOK" } ∧
    (loadConfig { awsCredentials := some ⟨"FA", "FS", none⟩ }
      { AWS_ACCESS_KEY_ID := some "AKIATEST" } {}).cfg.awsCredentials =
      some ⟨"FA", "FS", none⟩ :=
  ⟨⟨rfl, by decide⟩,
   (loadConfig_awsCredentials_unit { awsCredentials := some ⟨"FA", "FS", none⟩ }
      { AWS_ACCESS_KEY_ID := some "AKIATEST",
        AWS_SECRET_ACCESS_KEY := some "SECRETTEST",
        AWS_SESSION_TOKEN := some "TOK" } {}).1
      "AKIATEST" "SECRETTEST" rfl (by decide) rfl (by decide),
   (loadConfig_awsCredentials_unit { awsCredentials := some ⟨"FA", "FS", none⟩ }
      { AWS_ACCESS_KEY_ID := some "AKIATEST" } {}).2.1 (by decide)⟩

/-- Frame of the write-back block: with `key`/`region`/`creds` the resolved
values, the file after `writeBack` (or the untouched file when no write is
needed) changes exactly the API key, the region and the credential object,
each only when truthy/present and previously absent. -/
theorem writeBack_frame (fileCfg : AppConfig) (key region : Option String)
    (creds : Option AwsCredentials) :
    (if (writeBack fileCfg key region creds).2
      then (writeBack fileCfg key region creds).1 else fileCfg) =
      { fileCfg with
        openaiKey := if strT key && !(strT fileCfg.openaiKey) then key
          else fileCfg.openaiKey,
        region := if strT region && !(strT fileCfg.region) then region
          else fileCfg.region,
        awsCredentials := if creds.isSome && fileCfg.awsCredentials.isNone
          then creds else fileCfg.awsCredentials } := by
  cases hK : strT key && !(strT fileCfg.openaiKey) <;>
    cases hR : strT region && !(strT fileCfg.region) <;>
      cases hC : creds.isSome && fileCfg.awsCredentials.isNone <;>
        simp [writeBack, hK, hR, hC]

/-- C9 (amended): `loadConfig` writes back to the persisted file exactly the
API key, the **region** and the credential unit — each when resolved to a
truthy/present value that was absent from the file — and every other stored
field survives the rewrite unchanged. -/
theorem loadConfig_writeBack_spec (fileCfg : AppConfig) (env : EnvVars)
    (cli : CliOpts) :
    (loadConfig fileCfg env cli).file.model = fileCfg.model ∧
    (loadConfig fileCfg env cli).file.maxTokens = fileCfg.maxTokens ∧
    (loadConfig fileCfg env cli).file.scanPeriod = fileCfg.scanPeriod ∧
    (loadConfig fileCfg env cli).file.offline = fileCfg.offline ∧
    (loadConfig fileCfg env cli).file.inputTokenCost = fileCfg.inputTokenCost ∧
    (loadConfig fileCfg env cli).file.outputTokenCost = fileCfg.outputTokenCost ∧
    (loadConfig fileCfg env cli).file.cachedTokenCost = fileCfg.cachedTokenCost ∧
    (loadConfig fileCfg env cli).file.openaiKey =
      (if strT (loadConfig fileCfg env cli).cfg.openaiKey &&
          !(strT fileCfg.openaiKey)
        then (loadConfig fileCfg env cli).cfg.openaiKey
        else fileCfg.openaiKey) ∧
    (loadConfig fileCfg env cli).file.region =
      (if strT (loadConfig fileCfg env cli).cfg.region && !(strT fileCfg.region)
        then (loadConfig fileCfg env cli).cfg.region
        else fileCfg.region) ∧
    (loadConfig fileCfg env cli).file.awsCredentials =
      (if (loadConfig fileCfg env cli).cfg.awsCredentials.isSome &&
          fileCfg.awsCredentials.isNone
        then (loadConfig fileCfg env cli).cfg.awsCredentials
        else fileCfg.awsCredentials) := by
  have h := writeBack_frame fileCfg
    (resolveOpenaiKey cli.openaiKey env.OPENAI_API_KEY fileCfg.openaiKey)
    (resolveRegion cli.region (jsOrS env.AWS_REGION env.AWS_DEFAULT_REGION)
      fileCfg.region)
    (resolveAwsCreds env.AWS_ACCESS_KEY_ID env.AWS_SECRET_ACCESS_KEY
      env.AWS_SESSION_TOKEN fileCfg.awsCredentials)
  refine ⟨?_, ?_, ?_, ?_, ?_, ?_, ?_, ?_, ?_, ?_⟩ <;>
    simp only [loadConfig] <;> rw [h]

/-- C9 counterexample: a region supplied only by the environment is written
back to the persisted file — the rewritten file differs from the stored one
in the `region` field, while its API-key and credential fields are unchanged,
refuting "restricted to credentials and the API key only". -/
theorem loadConfig_writeBack_region_counterexample :
    (loadConfig {} { AWS_REGION := some "us-west-2" } {}).wrote = true ∧
    (loadConfig {} { AWS_REGION := some "us-west-2" } {}).file.region =
      some "us-west-2" ∧
    ({} : AppConfig).region = none ∧
    (loadConfig {} { AWS_REGION := some "us-west-2" } {}).file.openaiKey =
      ({} : AppConfig).openaiKey ∧
    (loadConfig {} { AWS_REGION := some "us-west-2" } {}).file.awsCredentials =
      ({} : AppConfig).awsCredentials ∧
    (loadConfig {} { AWS_REGION := some "us-west-2" } {}).file ≠ ({} : AppConfig) := by
  refine ⟨by decide, by decide, rfl, by decide, by decide, by decide⟩

/-- Hex digits are distinct for nibble values. -/
theorem hexDigit_injOn : ∀ m, m < 16 → ∀ n, n < 16 → hexDigit m = hexDigit n → m = n := by
  decide

/-- Hex digits of nibble values lie in the hex alphabet. -/
theorem hexDigit_mem_hexChars : ∀ n, n < 16 → hexDigit n ∈ hexChars := by
  decide

/-- The hex encoding of a byte list has two characters per byte. -/
theorem bytesToHexChars_length (l : List Nat) :
    (bytesToHexChars l).length = 2 * l.length := by
  induction l with
  | nil => rfl
  | cons b rest ih =>
    simp [bytesToHexChars, byteToHex, ih]
    omega

/-- Every character of the hex encoding of a byte list is a hex digit. -/
theorem bytesToHexChars_mem (l : List Nat) (h : ∀ b ∈ l, b < 256) :
    ∀ c ∈ bytesToHexChars l, c ∈ hexChars := by
  induction l with
  | nil => simp [bytesToHexChars]
  | cons b rest ih =>
    intro c hc
    have hb : b < 256 := h b (by simp)
    simp only [bytesToHexChars, byteToHex, List.cons_append, List.nil_append,
      List.mem_cons] at hc
    rcases hc with h1 | h1 | h1
    · exact h1 ▸ hexDigit_mem_hexChars (b / 16) (by omega)
    · exact h1 ▸ hexDigit_mem_hexChars (b % 16) (by omega)
    · exact ih (fun x hx => h x (by simp [hx])) c h1

/-- The hex encoding is injective on equal-length byte lists. -/
theorem bytesToHexChars_injOn : ∀ l1 l2 : List Nat, (∀ b ∈ l1, b < 256) →
    (∀ b ∈ l2, b < 256) → l1.length = l2.length →
    bytesToHexChars l1 = bytesToHexChars l2 → l1 = l2 := by
  intro l1
  induction l1 with
  | nil =>
    intro l2 _ _ hlen _
    cases l2 with
    | nil => rfl
    | cons _ _ => simp at hlen
  | cons b rest ih =>
    intro l2 h1 h2 hlen heq
    cases l2 with
    | nil => simp at hlen
    | cons b' rest' =>
      have hb : b < 256 := h1 b (by simp)
      have hb' : b' < 256 := h2 b' (by simp)
      simp only [bytesToHexChars, byteToHex, List.cons_append, List.nil_append,
        List.cons.injEq] at heq
      obtain ⟨e1, e2, e3⟩ := heq
      have d1 : b / 16 = b' / 16 :=
        hexDigit_injOn (b / 16) (by omega) (b' / 16) (by omega) e1
      have d2 : b % 16 = b' % 16 :=
        hexDigit_injOn (b % 16) (by omega) (b' % 16) (by omega) e2
      have hbb : b = b' := by omega
      subst hbb
      have : rest = rest' := by
        refine ih rest' (fun x hx => h1 x (by simp [hx]))
          (fun x hx => h2 x (by simp [hx])) ?_ e3
        simpa using hlen
      rw [this]

/-- Appending one element and taking the last of the result. -/
theorem getLast?_append_singleton {α : Type} (l : List α) (a : α) :
    (l ++ [a]).getLast? = some a := by
  induction l with
  | nil => rfl
  | cons x rest ih =>
    cases hr : rest ++ [a] with
    | nil => exact absurd hr (by simp)
    | cons y ys =>
      rw [List.cons_append, hr, List.getLast?_cons_cons, ← hr, ih]

/-- C6: `logJob` followed by `getJobLogs` on the rewritten file yields the
previous sequence with exactly one record appended; the last element carries
the supplied name, token counts and model; both the returned id and the
record's id are the generated identifier, which is 16 lowercase-hex
characters and differs whenever the random byte draw differs. -/
theorem logJob_getJobLogs_roundtrip (stored : Option (List JobLog))
    (name : String) (inT outT : Nat) (cost : Option ℚ) (model : Option String)
    (cached : Option Nat) (bytes : List Nat) (ts : String) (config : AppConfig)
    (hlen : bytes.length = 8) (hbytes : ∀ b ∈ bytes, b < 256) :
    getJobLogs (some (logJob name inT outT cost model cached bytes ts config stored).2) =
      getJobLogs stored ++ [mkJob name inT outT cost model cached bytes ts config] ∧
    (getJobLogs (some (logJob name inT outT cost model cached bytes ts config stored).2)).getLast? =
      some (mkJob name inT outT cost model cached bytes ts config) ∧
    (mkJob name inT outT cost model cached bytes ts config).name = name ∧
    (mkJob name inT outT cost model cached bytes ts config).inputTokens = inT ∧
    (mkJob name inT outT cost model cached bytes ts config).outputTokens = outT ∧
    (mkJob name inT outT cost model cached bytes ts config).model = model ∧
    (mkJob name inT outT cost model cached bytes ts config).id = generateJobId bytes ∧
    (logJob name inT outT cost model cached bytes ts config stored).1 =
      generateJobId bytes ∧
    (generateJobId bytes).length = 16 ∧
    (∀ c ∈ (generateJobId bytes).data, c ∈ hexChars) ∧
    (∀ bytes2, bytes2.length = 8 → (∀ b ∈ bytes2, b < 256) → bytes2 ≠ bytes →
      generateJobId bytes2 ≠ generateJobId bytes) := by
  refine ⟨rfl, ?_, rfl, rfl, rfl, rfl, rfl, rfl, ?_, ?_, ?_⟩
  · exact getLast?_append_singleton _ _
  · show (bytesToHexChars bytes).length = 16
    rw [bytesToHexChars_length, hlen]
  · exact bytesToHexChars_mem bytes hbytes
  · intro bytes2 hlen2 hbytes2 hne heq
    have : bytes2 = bytes := by
      refine bytesToHexChars_injOn bytes2 bytes hbytes2 hbytes (by omega) ?_
      exact congrArg String.data heq
    exact hne this

/-- C6 witness: appending a concrete record to a one-element ledger. -/
theorem logJob_getJobLogs_roundtrip_witness :
    ([1, 2, 3, 4, 5, 6, 7, 255] : List Nat).length = 8 ∧
    (∀ b ∈ ([1, 2, 3, 4, 5, 6, 7, 255] : List Nat), b < 256) ∧
    (getJobLogs (some (logJob "cost-analysis" 150 75 none (some "gpt-5-nano")
        none [1, 2, 3, 4, 5, 6, 7, 255] "2024-01-15T00:00:00.000Z" {} (some [])).2) =
      getJobLogs (some []) ++ [mkJob "cost-analysis" 150 75 none
        (some "gpt-5-nano") none [1, 2, 3, 4, 5, 6, 7, 255]
        "2024-01-15T00:00:00.000Z" {}] ∧
    (getJobLogs (some (logJob "cost-analysis" 150 75 none (some "gpt-5-nano")
        none [1, 2, 3, 4, 5, 6, 7, 255] "2024-01-15T00:00:00.000Z" {} (some [])).2)).getLast? =
      some (mkJob "cost-analysis" 150 75 none (some "gpt-5-nano") none
        [1, 2, 3, 4, 5, 6, 7, 255] "2024-01-15T00:00:00.000Z" {}) ∧
    (mkJob "cost-analysis" 150 75 none (some "gpt-5-nano") none
      [1, 2, 3, 4, 5, 6, 7, 255] "2024-01-15T00:00:00.000Z" {}).name = "cost-analysis" ∧
    (mkJob "cost-analysis" 150 75 none (some "gpt-5-nano") none
      [1, 2, 3, 4, 5, 6, 7, 255] "2024-01-15T00:00:00.000Z" {}).inputTokens = 150 ∧
    (mkJob "cost-analysis" 150 75 none (some "gpt-5-nano") none
      [1, 2, 3, 4, 5, 6, 7, 255] "2024-01-15T00:00:00.000Z" {}).outputTokens = 75 ∧
    (mkJob "cost-analysis" 150 75 none (some "gpt-5-nano") none
      [1, 2, 3, 4, 5, 6, 7, 255] "2024-01-15T00:00:00.000Z" {}).model = some "gpt-5-nano" ∧
    (mkJob "cost-analysis" 150 75 none (some "gpt-5-nano") none
      [1, 2, 3, 4, 5, 6, 7, 255] "2024-01-15T00:00:00.000Z" {}).id =
      generateJobId [1, 2, 3, 4, 5, 6, 7, 255] ∧
    (logJob "cost-analysis" 150 75 none (some "gpt-5-nano") none
      [1, 2, 3, 4, 5, 6, 7, 255] "2024-01-15T00:00:00.000Z" {} (some [])).1 =
      generateJobId [1, 2, 3, 4, 5, 6, 7, 255] ∧
    (generateJobId [1, 2, 3, 4, 5, 6, 7, 255]).length = 16 ∧
    (∀ c ∈ (generateJobId [1, 2, 3, 4, 5, 6, 7, 255]).data, c ∈ hexChars) ∧
    (∀ bytes2, bytes2.length = 8 → (∀ b ∈ bytes2, b < 256) →
      bytes2 ≠ [1, 2, 3, 4, 5, 6, 7, 255] →
      generateJobId bytes2 ≠ generateJobId [1, 2, 3, 4, 5, 6, 7, 255])) :=
  ⟨by decide, by decide,
   logJob_getJobLogs_roundtrip (some []) "cost-analysis" 150 75 none
     (some "gpt-5-nano") none [1, 2, 3, 4, 5, 6, 7, 255]
     "2024-01-15T00:00:00.000Z" {} (by decide) (by decide)⟩

end AiCloudDoctor
